import Mathlib

/-!
Verification development for the `django-harry` transactional email subsystem
(`src/harry/email/`).  The Python services are embedded shallowly:

* pure helpers (`utils.trim_string`, `utils.validate_request_body_json`) become
  Lean functions over `String` / a small `Json` type;
* the Django ORM stores become explicit lists of records threaded through the
  service functions (`save` = replace the record with the same id);
* Python exceptions become `Except` values; the `try/except` block of
  `email_message_webhook_process` is modelled by running the translated `try`
  body in an error monad and applying the translated handler to the result;
* external collaborators excluded by the specification (the Django template
  renderer, address sanitizer and mail transport) are fields of an environment
  record, as the specification treats them as opaque boundary interfaces;
* Django model-level validation (`full_clean`) and logging are treated as
  always succeeding no-ops: the specification explicitly excludes the
  persistence schema wiring, and no claim depends on field-format validation;
* Python `datetime.fromisoformat` is embedded as a parser for offset-carrying
  ISO-8601 instants (the form produced by the provider payloads after the
  source's `Z -> +00:00` normalization), returning microseconds since the
  civil epoch.

Machine-word overflow does not occur anywhere in the source, so integers are
`Int`/`Nat`.
-/

/-! ## Python string primitives (used by `utils.trim_string` and friends) -/

/-- Code points Python's `str.isspace`/`str.strip` treat as whitespace. -/
def pySpaceCodes : List Nat :=
  [0x20, 0x09, 0x0a, 0x0d, 0x0b, 0x0c, 0x1c, 0x1d, 0x1e, 0x1f, 0x85, 0xa0,
   0x1680, 0x2000, 0x2001, 0x2002, 0x2003, 0x2004, 0x2005, 0x2006, 0x2007,
   0x2008, 0x2009, 0x200a, 0x2028, 0x2029, 0x202f, 0x205f, 0x3000]

def pyIsSpace (c : Char) : Bool := pySpaceCodes.contains c.toNat

/-- Code points Python's `str.splitlines` treats as line boundaries. -/
def pyLineBoundaryCodes : List Nat :=
  [0x0a, 0x0d, 0x0b, 0x0c, 0x1c, 0x1d, 0x1e, 0x85, 0x2028, 0x2029]

def pyIsLineBoundary (c : Char) : Bool := pyLineBoundaryCodes.contains c.toNat

/-- Python `str.strip()` (no argument): remove leading and trailing whitespace. -/
def pyStrip (s : String) : String :=
  String.mk (((s.data.dropWhile pyIsSpace).reverse.dropWhile pyIsSpace).reverse)

def pySplitlinesAux : List Char → List Char → List String
  | [], acc => if acc.isEmpty then [] else [String.mk acc.reverse]
  -- "\r\n" counts as a single line boundary
  | '\r' :: '\n' :: rest, acc => String.mk acc.reverse :: pySplitlinesAux rest []
  | c :: rest, acc =>
    if pyIsLineBoundary c then
      String.mk acc.reverse :: pySplitlinesAux rest []
    else
      pySplitlinesAux rest (c :: acc)

/-- Python `str.splitlines()` (keepends = False). -/
def pySplitlines (s : String) : List String := pySplitlinesAux s.data []

/-- Python `a or b` for strings: `b` when `a` is the empty (falsy) string. -/
def pyOr (a b : String) : String := if a = "" then b else a

/-- Non-overlapping left-to-right replacement, fuelled by the input length
(every step consumes at least one character). -/
def pyReplaceAux (old repl : List Char) : Nat → List Char → List Char
  | _, [] => []
  | 0, cs => cs
  | fuel + 1, c :: rest =>
    if old.isPrefixOf (c :: rest) then
      repl ++ pyReplaceAux old repl fuel (rest.drop (old.length - 1))
    else c :: pyReplaceAux old repl fuel rest

/-- Python `s.replace(old, repl)` for a non-empty `old` (the services only
call it as `ts.replace("Z", "+00:00")`). -/
def pyReplace (s old repl : String) : String :=
  if old.data.isEmpty then s
  else String.mk (pyReplaceAux old.data repl.data s.data.length s.data)

/-- Python `s[:stop]` with a possibly negative `stop`. -/
def pySliceTo (s : String) (stop : Int) : String :=
  if 0 ≤ stop then String.mk (s.data.take stop.toNat)
  else String.mk (s.data.take (s.length - (-stop).toNat))

/-! ## `utils.trim_string` -/

/-- The accumulation loop of `trim_string`: keep the stripped form of every
line whose stripped form is non-blank, in order. -/
def sanitize_lines : List String → List String
  | [] => []
  | line :: rest =>
    let sanitized_line := pyStrip line
    if sanitized_line = "" then sanitize_lines rest
    else sanitized_line :: sanitize_lines rest

/-- `utils.trim_string`: split into lines, strip each, drop blank lines, join
the survivors with single spaces, strip the ends. -/
def trim_string (field : String) : String :=
  let lines := pySplitlines field
  let sanitized_lines := sanitize_lines lines
  pyStrip (String.intercalate " " sanitized_lines)

/-- Spec-worded alternative reading of the trim contract: collapse every
maximal run of whitespace (not just line boundaries) into a single space and
strip the ends.  Used to compare the specification's first characterization of
`trim_string` against the source. -/
def collapse_ws_aux : Bool → List Char → List Char
  | _, [] => []
  | prevSpace, c :: rest =>
    if pyIsSpace c then
      if prevSpace then collapse_ws_aux true rest
      else ' ' :: collapse_ws_aux true rest
    else c :: collapse_ws_aux false rest

def collapse_ws (l : List Char) : List Char := collapse_ws_aux false l

/-- Spec-worded whitespace-collapsing normalizer (claimed, not source). -/
def trim_string_ws_spec (s : String) : String :=
  pyStrip (String.mk (collapse_ws s.data))

/-- Spec-worded contract for `trim_string`: split on line boundaries, strip
each line, drop blank lines, join with a single space, strip the ends. -/
def trim_string_contract (s : String) : String :=
  pyStrip (String.intercalate " "
    (((pySplitlines s).map pyStrip).filter (fun l => !(l = ""))))

/-! ## JSON documents (`json.loads` subset) -/

/-- Parsed JSON values (Python `json.loads` results).  Numbers are restricted
to integers: none of the provider payload fields the services read are
floating point, and a non-integer number anywhere simply makes the model's
parse fail where Python would succeed, which the theorems never rely on. -/
inductive Json where
  | null
  | bool (b : Bool)
  | num (n : Int)
  | str (s : String)
  | arr (elems : List Json)
  | obj (fields : List (String × Json))

def Json.isObj : Json → Bool
  | .obj _ => true
  | _ => false

/-- First-match lookup in a parsed JSON object (Python `body[key]` /
`key in body`). -/
def jlookup (fields : List (String × Json)) (key : String) : Option Json :=
  (fields.find? (fun p => p.1 = key)).map (fun p => p.2)

/-- Python `str(value)` as applied when a JSON value is assigned to a Django
`CharField`.  The services only ever store string-typed payload fields; the
other branches give `str`'s rendering of the primitive Python values. -/
def jstr : Json → String
  | .str s => s
  | .null => "None"
  | .bool true => "True"
  | .bool false => "False"
  | .num n => toString n
  | .arr _ => ""
  | .obj _ => ""

def jsonSkipWs (cs : List Char) : List Char :=
  cs.dropWhile (fun c => c = ' ' ∨ c = '\t' ∨ c = '\n' ∨ c = '\r')

/-- String body after an opening quote; escapes are not supported (no payload
field the services read contains one). -/
def parseStrBody : List Char → Option (String × List Char)
  | [] => none
  | '"' :: rest => some ("", rest)
  | '\\' :: _ => none
  | c :: rest => (parseStrBody rest).map (fun p => (String.mk (c :: p.1.data), p.2))

def parseDigits : List Char → List Char → Option (Nat × List Char)
  | acc, c :: rest =>
    if c.isDigit then parseDigits (c :: acc) rest
    else if acc.isEmpty then none
    else some (acc.reverse.foldl (fun n d => n * 10 + (d.toNat - 48)) 0, c :: rest)
  | acc, [] =>
    if acc.isEmpty then none
    else some (acc.reverse.foldl (fun n d => n * 10 + (d.toNat - 48)) 0, [])

mutual

def parseJsonVal : Nat → List Char → Option (Json × List Char)
  | 0, _ => none
  | fuel + 1, cs =>
    match jsonSkipWs cs with
    | 'n' :: 'u' :: 'l' :: 'l' :: rest => some (.null, rest)
    | 't' :: 'r' :: 'u' :: 'e' :: rest => some (.bool true, rest)
    | 'f' :: 'a' :: 'l' :: 's' :: 'e' :: rest => some (.bool false, rest)
    | '"' :: rest => (parseStrBody rest).map (fun p => (.str p.1, p.2))
    | '[' :: rest =>
      (match jsonSkipWs rest with
       | ']' :: rest2 => some (.arr [], rest2)
       | _ => (parseJsonElems fuel rest).map (fun p => (.arr p.1, p.2)))
    | '{' :: rest =>
      (match jsonSkipWs rest with
       | '}' :: rest2 => some (.obj [], rest2)
       | _ => (parseJsonFields fuel rest).map (fun p => (.obj p.1, p.2)))
    | '-' :: rest => (parseDigits [] rest).map (fun p => (.num (-(p.1 : Int)), p.2))
    | c :: rest =>
      if c.isDigit then (parseDigits [] (c :: rest)).map (fun p => (.num (p.1 : Int), p.2))
      else none
    | [] => none

def parseJsonElems : Nat → List Char → Option (List Json × List Char)
  | 0, _ => none
  | fuel + 1, cs => do
    let (v, rest) ← parseJsonVal fuel cs
    match jsonSkipWs rest with
    | ',' :: rest2 => (parseJsonElems fuel rest2).map (fun p => (v :: p.1, p.2))
    | ']' :: rest2 => some ([v], rest2)
    | _ => none

def parseJsonFields : Nat → List Char → Option (List (String × Json) × List Char)
  | 0, _ => none
  | fuel + 1, cs =>
    match jsonSkipWs cs with
    | '"' :: rest => do
      let (k, rest2) ← parseStrBody rest
      match jsonSkipWs rest2 with
      | ':' :: rest3 => do
        let (v, rest4) ← parseJsonVal fuel rest3
        match jsonSkipWs rest4 with
        | ',' :: rest5 => (parseJsonFields fuel rest5).map (fun p => ((k, v) :: p.1, p.2))
        | '}' :: rest5 => some ([(k, v)], rest5)
        | _ => none
      | _ => none
    | _ => none

end

/-- Python `json.loads`, on the JSON subset the webhook payloads use; `none`
models `json.decoder.JSONDecodeError`. -/
def json_loads (s : String) : Option Json :=
  match parseJsonVal (s.length + 2) s.data with
  | some (j, rest) => if jsonSkipWs rest = [] then some j else none
  | none => none

/-! ## `datetime.fromisoformat` -/

/-- Days from 0000-03-01-based civil epoch to 1970-01-01 (standard
`days_from_civil` algorithm); all intermediate values are nonnegative for
years ≥ 1, so Lean's truncating `Int` division agrees with floor division. -/
def days_from_civil (y m d : Int) : Int :=
  let y2 := if m ≤ 2 then y - 1 else y
  let era := y2 / 400
  let yoe := y2 - era * 400
  let doy := (153 * (if m > 2 then m - 3 else m + 9) + 2) / 5 + d - 1
  let doe := yoe * 365 + yoe / 4 - yoe / 100 + doy
  era * 146097 + doe - 719468

def digitVal (c : Char) : Option Nat :=
  if c.isDigit then some (c.toNat - 48) else none

def digits2 (a b : Char) : Option Nat := do
  let x ← digitVal a
  let y ← digitVal b
  pure (x * 10 + y)

/-- Fractional seconds: `.` followed by one to six digits, scaled to
microseconds. -/
def parseIsoFrac : List Char → Option (Nat × List Char)
  | '.' :: rest =>
    let ds := rest.takeWhile Char.isDigit
    if ds.isEmpty ∨ 6 < ds.length then none
    else
      some ((ds.foldl (fun n c => n * 10 + (c.toNat - 48)) 0) *
              (10 ^ (6 - ds.length)), rest.dropWhile Char.isDigit)
  | rest => some (0, rest)

/-- A `±HH:MM` UTC offset terminating the string, in signed seconds. -/
def parseIsoOffset : List Char → Option Int
  | s :: h1 :: h2 :: ':' :: m1 :: m2 :: [] => do
    let sign : Int ← if s = '+' then some 1 else if s = '-' then some (-1) else none
    let h ← digits2 h1 h2
    let m ← digits2 m1 m2
    if h ≤ 23 ∧ m ≤ 59 then pure (sign * ((h : Int) * 3600 + (m : Int) * 60))
    else none
  | _ => none

/-- Python `datetime.fromisoformat` restricted to complete, offset-aware
instants `YYYY-MM-DD(T| )HH:MM:SS[.ffffff]±HH:MM` — the shape every provider
timestamp has after the source's `Z -> +00:00` normalization.  The result is
microseconds since 1970-01-01T00:00:00+00:00 (any strictly monotone encoding
of instants would do; this one is the conventional epoch).  `none` models
`ValueError` (including naive, partial, or otherwise unsupported forms, which
no claim exercises). -/
def fromisoformat (s : String) : Option Int :=
  match s.data with
  | y1 :: y2 :: y3 :: y4 :: '-' :: mo1 :: mo2 :: '-' :: d1 :: d2 :: sep ::
      h1 :: h2 :: ':' :: mi1 :: mi2 :: ':' :: s1 :: s2 :: rest => do
    if sep = 'T' ∨ sep = ' ' then
      let ya ← digits2 y1 y2
      let yb ← digits2 y3 y4
      let y := ya * 100 + yb
      let mo ← digits2 mo1 mo2
      let d ← digits2 d1 d2
      let h ← digits2 h1 h2
      let mi ← digits2 mi1 mi2
      let sec ← digits2 s1 s2
      let (frac, rest2) ← parseIsoFrac rest
      let off ← parseIsoOffset rest2
      if 1 ≤ y ∧ 1 ≤ mo ∧ mo ≤ 12 ∧ 1 ≤ d ∧ d ≤ 31 ∧ h ≤ 23 ∧ mi ≤ 59 ∧ sec ≤ 59 then
        pure ((days_from_civil (y : Int) (mo : Int) (d : Int) * 86400 +
                (h : Int) * 3600 + (mi : Int) * 60 + (sec : Int) - off) * 1000000 +
              (frac : Int))
      else none
    else none
  | _ => none

/-! ## `constants.py` -/

/-- `constants.EmailMessage.Status`. -/
inductive EmailMessageStatus where
  | new | ready | pending | sent | delivered | opened | bounced | spam
  | canceled | error
deriving DecidableEq, Repr

/-- `constants.EmailMessageWebhook.Status`. -/
inductive WebhookStatus where
  | new | pending | processed | error
deriving DecidableEq, Repr

/-- `constants.WEBHOOK_TYPE_TO_EMAIL_STATUS`. -/
def WEBHOOK_TYPE_TO_EMAIL_STATUS : String → Option EmailMessageStatus
  | "Delivery" => some .delivered
  | "Open" => some .opened
  | "Bounce" => some .bounced
  | "SpamComplaint" => some .spam
  | _ => none

/-- `constants.WEBHOOK_TYPE_TO_TIMESTAMP`. -/
def WEBHOOK_TYPE_TO_TIMESTAMP : String → Option String
  | "Delivery" => some "DeliveredAt"
  | "Open" => some "ReceivedAt"
  | "Bounce" => some "BouncedAt"
  | "SpamComplaint" => some "BouncedAt"
  | _ => none

/-! ## Data model (`models.py`) -/

/-- An `EmailMessageAttachment` as seen by `email_message_send`: original
filename, declared MIME type, and the stored bytes. -/
structure Attachment where
  filename : String
  mimetype : String
  content : String

/-- `models.EmailMessage`, restricted to the fields the core services read or
write.  `template_id` embeds the source's template-identifier field (its
Python name ends in a token this development cannot use); `created_by` is the
nullable foreign key to the originating user. -/
structure EmailMessage where
  id : Nat
  created_by : Option Nat
  sender_name : String
  sender_email : String
  to_name : String
  to_email : String
  reply_to_name : String
  reply_to_email : String
  subject : String
  template_id : String
  template_context : List (String × Json)
  message_id : Option String
  status : EmailMessageStatus
  error_message : String
  sent_at : Option Int
  attachments : List Attachment

/-- `models.EmailMessageWebhook`, restricted to the fields the services use. -/
structure EmailMessageWebhook where
  id : Nat
  body : List (String × Json)
  headers : List (String × String)
  type : String
  email_message : Option Nat
  note : String
  status : WebhookStatus

/-- The durable stores the services read and write. -/
structure MailState where
  messages : List EmailMessage
  webhooks : List EmailMessageWebhook

/-- `message.save()` on an existing row: replace the record with the same
primary key. -/
def saveMessage (m : EmailMessage) (l : List EmailMessage) : List EmailMessage :=
  l.map (fun x => if x.id = m.id then m else x)

/-- `webhook.save()` on an existing row. -/
def saveWebhook (w : EmailMessageWebhook) (l : List EmailMessageWebhook) :
    List EmailMessageWebhook :=
  l.map (fun x => if x.id = w.id then w else x)

/-! ## `utils.validate_request_body_json` -/

/-- `utils.validate_request_body_json` with its default `required_keys=None`
(the only way the services call it): parse the body, mapping a JSON decode
error to `ValueError("Invalid payload")`. -/
def validate_request_body_json (body : String) : Except String Json :=
  match json_loads body with
  | none => .error "Invalid payload"
  | some j => .ok j

/-! ## `services.email_message_check_cooling_down` -/

/-- `services.email_message_check_cooling_down`: count messages sent within
the cooldown window that match the candidate on each scope present in
`scopes`, and suppress when the count reaches `allowed`.  `now` stands for
`timezone.now()`; Django's `sent_at__gt` lookup excludes rows with a null
`sent_at`. -/
def email_message_check_cooling_down (now : Int) (store : List EmailMessage)
    (e : EmailMessage) (period : Int) (allowed : Nat) (scopes : List String) :
    Bool :=
  let msgs0 := store.filter (fun m =>
    match m.sent_at with
    | some t => decide (now - period < t)
    | none => false)
  let msgs1 :=
    if scopes.contains "created_by" then
      msgs0.filter (fun m => decide (m.created_by = e.created_by))
    else msgs0
  let msgs2 :=
    if scopes.contains "template_prefix" then
      msgs1.filter (fun m => decide (m.template_id = e.template_id))
    else msgs1
  let msgs3 :=
    if scopes.contains "to" then
      msgs2.filter (fun m => decide (m.to_email = e.to_email))
    else msgs2
  decide (allowed ≤ msgs3.length)

/-! ## `services.email_message_prepare` -/

/-- Exceptions raised by the excluded collaborators (template renderer,
address sanitizer, transport).  `templateDoesNotExist` is Django's
`TemplateDoesNotExist`, which `email_message_send` treats specially for the
HTML variant. -/
inductive Exn where
  | templateDoesNotExist (name : String)
  | other (message : String)
deriving DecidableEq, Repr

/-- Python `repr(e)` for a caught exception, as stored in `error_message`. -/
def reprExn : Exn → String
  | .templateDoesNotExist name => "TemplateDoesNotExist(" ++ name ++ ")"
  | .other message => "Exception(" ++ message ++ ")"

/-- The failure modes of `email_message_prepare`. -/
inductive PrepError where
  | invalidStateTransition
  | replyToInconsistent
  | renderFailed (ex : Exn)
deriving Repr

/-- The configuration and collaborators `email_message_prepare` consumes:
`settings.SITE_CONFIG` (whose `default_from_email` is asserted non-null by the
source), `settings.MAX_SUBJECT_LENGTH`, and the template renderer
`render_to_string`. -/
structure PrepEnv where
  default_from_email : String
  default_from_name : Option String
  logo_url : Json
  logo_url_link : Json
  contact_email : Json
  site_name : Json
  company : Json
  company_address : Json
  company_city_state_zip : Json
  max_subject_length : Int
  render : String → List (String × Json) → Except Exn String

/-- The fixed presentation defaults merged under the message's own context. -/
def siteDefaults (env : PrepEnv) : List (String × Json) :=
  [("logo_url", env.logo_url), ("logo_url_link", env.logo_url_link),
   ("contact_email", env.contact_email), ("site_name", env.site_name),
   ("company", env.company), ("company_address", env.company_address),
   ("company_city_state_zip", env.company_city_state_zip)]

/-- Python `a | b` on dicts: keys of `a` keep their position but take `b`'s
value on collision; `b`'s new keys follow in order. -/
def dictMerge (a b : List (String × Json)) : List (String × Json) :=
  a.map (fun p => (p.1, ((jlookup b p.1).getD p.2))) ++
    b.filter (fun p => !(a.any (fun q => q.1 = p.1)))

/-- Python `d[key] = value`: update in place when present, else append. -/
def dictSet (a : List (String × Json)) (key : String) (v : Json) :
    List (String × Json) :=
  if a.any (fun q => q.1 = key) then
    a.map (fun p => if p.1 = key then (p.1, v) else p)
  else a ++ [(key, v)]

/-- `services.email_message_prepare`.  The result carries the final persisted
record: `.error (err, e')` models the raise of `err` with `e'` the record as
persisted up to that point (the status=NEW precondition fires before any
mutation; the reply-to inconsistency persists status=ERROR first). -/
def email_message_prepare (env : PrepEnv) (e : EmailMessage) :
    Except (PrepError × EmailMessage) EmailMessage :=
  if e.status ≠ EmailMessageStatus.new then
    .error (.invalidStateTransition, e)
  else
    let e1 := { e with
      sender_email := trim_string (pyOr e.sender_email env.default_from_email)
      sender_name := trim_string (pyOr e.sender_name (env.default_from_name.getD ""))
      reply_to_email := trim_string e.reply_to_email
      reply_to_name := trim_string e.reply_to_name
      to_name := trim_string e.to_name
      to_email := trim_string e.to_email }
    if e1.reply_to_name ≠ "" ∧ e1.reply_to_email = "" then
      .error (.replyToInconsistent, { e1 with status := EmailMessageStatus.error })
    else
      let template_context := dictMerge (siteDefaults env) e.template_context
      let subjectRes : Except Exn String :=
        if e1.subject = "" then
          env.render (e1.template_id ++ "_subject.txt") template_context
        else .ok e1.subject
      match subjectRes with
      | .error ex => .error (.renderFailed ex, e1)
      | .ok subject0 =>
        let subject1 := trim_string subject0
        let subject2 :=
          if (subject1.length : Int) > env.max_subject_length then
            pySliceTo subject1 (env.max_subject_length - 3) ++ "..."
          else subject1
        .ok { e1 with
          template_context := dictSet template_context "subject" (Json.str subject2)
          subject := subject2
          status := EmailMessageStatus.ready }

/-! ## `services.email_message_send` -/

/-- What `EmailMultiAlternatives.send()` returns: the provider backend may or
may not hand back a list of message ids. -/
inductive TransportResult where
  | idList (ids : List String)
  | nonList
deriving Repr

/-- The composed outbound message handed to the transport. -/
structure ComposedEmail where
  subject : String
  from_email : String
  -- the `to` recipient list (the source's field name is a Lean keyword here)
  to_addrs : List String
  body : String
  reply_to : Option (List String)
  alternatives : List (String × String)
  attachments : List (String × String × String)

/-- Collaborators of `email_message_send`: template renderer,
`sanitize_address`, the transport, and the clock. -/
structure SendEnv where
  render : String → List (String × Json) → Except Exn String
  sanitize_address : String → String → Except Exn String
  transport_send : ComposedEmail → Except Exn TransportResult
  now : Int

/-- Step 2 of send: the HTML variant; `TemplateDoesNotExist` is tolerated
(text-only send), any other rendering failure propagates to the outer
handler. -/
def send_render_html (env : SendEnv) (e : EmailMessage) :
    Except Exn (Option String) :=
  match env.render (e.template_id ++ "_message.html") e.template_context with
  | .ok html_msg => .ok (some html_msg)
  | .error (.templateDoesNotExist _) => .ok none
  | .error ex => .error ex

/-- Step 3 of send: sanitize sender, recipient, and the optional reply-to. -/
def send_addresses (env : SendEnv) (e : EmailMessage) :
    Except Exn (String × List String × Option (List String)) := do
  let from_email ← env.sanitize_address e.sender_name e.sender_email
  let to1 ← env.sanitize_address e.to_name e.to_email
  let reply_to ←
    if e.reply_to_email ≠ "" then do
      let r ← env.sanitize_address e.reply_to_name e.reply_to_email
      pure (some [r])
    else pure none
  pure (from_email, [to1], reply_to)

/-- The `EmailMultiAlternatives` composition of send: subject, sanitized
addresses, text body, the optional HTML alternative, and every bound
attachment in stored order with its original filename and declared MIME
type. -/
def composed_of (w : EmailMessage) (msg : String) (ho : Option String)
    (f : String) (t : List String) (r : Option (List String)) : ComposedEmail :=
  { subject := w.subject
    from_email := f
    to_addrs := t
    body := msg
    reply_to := r
    alternatives :=
      match ho with
      | some h => [(h, "text/html")]
      | none => []
    attachments := w.attachments.map (fun a => (a.filename, a.content, a.mimetype)) }

/-- The `try` body of `email_message_send`: render, sanitize, compose, attach
in stored order, dispatch; the result is the value `message_id` ends up with
(a single provider id when the transport returns a one-element list, the
previous value otherwise). -/
def send_try (env : SendEnv) (e : EmailMessage) : Except Exn (Option String) := do
  let msg ← env.render (e.template_id ++ "_message.txt") e.template_context
  let html_msg ← send_render_html env e
  let (from_email, to_addrs, reply_to) ← send_addresses env e
  let message_ids ←
    env.transport_send (composed_of e msg html_msg from_email to_addrs reply_to)
  match message_ids with
  | .idList [i] => pure (some i)
  | _ => pure e.message_id

/-- `services.email_message_send`.  The status=READY precondition is checked
before the `try` block, so its `RuntimeError` propagates (`.error ()`); every
failure inside the block is caught and recorded as status=ERROR with
`error_message = repr(exception)`; on success the record becomes status=SENT
with `sent_at` set.  The returned record is the final persisted row. -/
def email_message_send (env : SendEnv) (e : EmailMessage) :
    Except Unit EmailMessage :=
  if e.status ≠ EmailMessageStatus.ready then .error ()
  else
    let ep := { e with status := EmailMessageStatus.pending }
    match send_try env ep with
    | .error ex =>
      .ok { ep with
        status := EmailMessageStatus.error
        error_message := reprExn ex }
    | .ok mid =>
      .ok { ep with
        message_id := mid
        status := EmailMessageStatus.sent
        sent_at := some env.now }

/-! ## `services.email_message_webhook_create_from_request` -/

/-- `services.email_message_webhook_create_from_request`: parse the raw body
(raising `ValueError("Invalid payload")` when it is unparseable or not a
mapping), keep only string-valued headers, and create one WebhookEvent in
status=NEW.  The pair returns the raised-or-created result together with the
store, which is untouched on failure. -/
def email_message_webhook_create_from_request (body : String)
    (headers : List (String × Json)) (st : MailState) :
    Except String EmailMessageWebhook × MailState :=
  match validate_request_body_json body with
  | .error msg => (.error msg, st)
  | .ok payload =>
    match payload with
    | .obj kvs =>
      let headers_processed :=
        headers.filterMap (fun p =>
          match p.2 with
          | .str v => some (p.1, v)
          | _ => none)
      let webhook : EmailMessageWebhook :=
        { id := st.webhooks.length
          body := kvs
          headers := headers_processed
          type := ""
          email_message := none
          note := ""
          status := WebhookStatus.new }
      (.ok webhook, { st with webhooks := st.webhooks ++ [webhook] })
    | _ => (.error "Invalid payload", st)

/-! ## `services.email_message_webhook_process` -/

/-- One iteration of the timestamp scan: the type-specific timestamp key, the
payload field under it (which must be a string for `.replace` to exist), the
`Z -> +00:00` normalization, and the ISO-8601 parse.  `none` models the
exception (KeyError / AttributeError / ValueError) that sends the webhook to
status=ERROR. -/
def webhook_logical_ts (type : String) (body : List (String × Json)) :
    Option Int := do
  let ts_key ← WEBHOOK_TYPE_TO_TIMESTAMP type
  let tsv ← jlookup body ts_key
  match tsv with
  | .str ts => fromisoformat (pyReplace ts "Z" "+00:00")
  | _ => none

def webhook_ts_of (w : EmailMessageWebhook) : Option Int :=
  webhook_logical_ts w.type w.body

/-- The `if len(all_ts) == 0 or all_ts[-1] < ts_dt` test after
`all_ts.sort()`: the last element of the sorted prior-timestamp list (its
maximum) must be strictly below this event's own timestamp. -/
def sorted_last_lt (all_ts : List Int) (ts_dt : Int) : Bool :=
  match (all_ts.insertionSort (· ≤ ·)).getLast? with
  | none => true
  | some last => decide (last < ts_dt)

/-- The diagnostic `traceback.format_exc()` text stored on a failed webhook
(opaque to every property; modelled as a fixed non-empty marker). -/
def pyTraceback : String := "Traceback (most recent call last)"

/-- Steps 3 of processing: find the related EmailMessage by `MessageID`,
link it, and when the classified type maps to a terminal email status run the
out-of-order guard over every already-linked webhook of that message. -/
def webhook_process_linking (w : EmailMessageWebhook) (st : MailState) :
    Except (EmailMessageWebhook × MailState) (EmailMessageWebhook × MailState) :=
  match jlookup w.body "MessageID" with
  | none => .ok (w, st)
  | some mv =>
    match st.messages.find? (fun m =>
        match mv with
        | .str mid => decide (m.message_id = some mid)
        | _ => false) with
    | none => .ok (w, st)
    | some email_message =>
      let w3 := { w with email_message := some email_message.id }
      match WEBHOOK_TYPE_TO_EMAIL_STATUS w3.type with
      | none => .ok (w3, st)
      | some new_status =>
        -- Make sure this is the most recent webhook, in case it arrived
        -- out of order.
        let others := st.webhooks.filter (fun ow =>
          decide (ow.email_message = some email_message.id))
        match others.mapM webhook_ts_of with
        | none => .error (w3, st)
        | some all_ts =>
          match webhook_ts_of w3 with
          | none => .error (w3, st)
          | some ts_dt =>
            if sorted_last_lt all_ts ts_dt then
              .ok (w3, { st with
                messages :=
                  saveMessage { email_message with status := new_status }
                    st.messages })
            else .ok (w3, st)

/-- The `try` body of `email_message_webhook_process`: `.error (w, st)` models
an exception escaping to the handler with `w` the in-memory webhook and `st`
the stores as persisted so far; `.ok (w, st)` reaches the final
status=PROCESSED save. -/
def webhook_process_try (w0 : EmailMessageWebhook) (st : MailState) :
    Except (EmailMessageWebhook × MailState) (EmailMessageWebhook × MailState) :=
  if w0.status ≠ WebhookStatus.new then
    -- the status=NEW precondition RuntimeError, raised inside the try block
    .error (w0, st)
  else
    let w1 := { w0 with status := WebhookStatus.pending }
    let st1 := { st with webhooks := saveWebhook w1 st.webhooks }
    match jlookup w1.body "RecordType" with
    | some rt =>
      let w2 := { w1 with type := jstr rt }
      let st2 := { st1 with webhooks := saveWebhook w2 st1.webhooks }
      webhook_process_linking w2 st2
    | none => webhook_process_linking w1 st1

/-- `services.email_message_webhook_process`: run the try body; on success
persist status=PROCESSED, on any caught exception persist status=ERROR with
the diagnostic note.  Nothing propagates to the caller. -/
def email_message_webhook_process (w : EmailMessageWebhook) (st : MailState) :
    MailState :=
  match webhook_process_try w st with
  | .ok (w', st') =>
    { st' with
      webhooks := saveWebhook { w' with status := WebhookStatus.processed } st'.webhooks }
  | .error (w', st') =>
    { st' with
      webhooks :=
        saveWebhook { w' with status := WebhookStatus.error, note := pyTraceback }
          st'.webhooks }

/-! ## Shared concrete fixtures for witnesses and counterexamples -/

/-- A well-formed message record used to build concrete scenarios. -/
def sampleMessage : EmailMessage :=
  { id := 0, created_by := none, sender_name := "", sender_email := "bob@example.com",
    to_name := "Pat", to_email := "pat@example.com", reply_to_name := "",
    reply_to_email := "", subject := "A subject", template_id := "core/email/base",
    template_context := [], message_id := some "id-abc123",
    status := EmailMessageStatus.sent, error_message := "", sent_at := some 0,
    attachments := [] }

def samplePrepEnv : PrepEnv :=
  { default_from_email := "noreply@example.com"
    default_from_name := some "Example App"
    logo_url := Json.str ""
    logo_url_link := Json.str ""
    contact_email := Json.str "bob@example.com"
    site_name := Json.str "Example App"
    company := Json.str "Bob Smith PLLC"
    company_address := Json.str "123 Main Street"
    company_city_state_zip := Json.str "Washington, DC 20006"
    max_subject_length := 78
    render := fun _ _ => Except.ok "Rendered subject" }

/-- A webhook already in status=PROCESSED. -/
def sampleProcessedWebhook : EmailMessageWebhook :=
  { id := 0, body := [("RecordType", Json.str "Delivery")], headers := [],
    type := "Delivery", email_message := none, note := "",
    status := WebhookStatus.processed }

def sampleProcessedState : MailState :=
  { messages := [], webhooks := [sampleProcessedWebhook] }

/-- A webhook already in status=PENDING. -/
def samplePendingWebhook : EmailMessageWebhook :=
  { id := 0, body := [], headers := [], type := "", email_message := none,
    note := "", status := WebhookStatus.pending }

def samplePendingState : MailState :=
  { messages := [], webhooks := [samplePendingWebhook] }

/-! ## C5 — prepare on a non-NEW message -/

/-- C5: for every message whose status is not NEW, `email_message_prepare`
fails with the InvalidStateTransition error and returns/persists the record
completely unchanged. -/
theorem email_message_prepare_rejects_non_new (env : PrepEnv) (e : EmailMessage)
    (h : e.status ≠ EmailMessageStatus.new) :
    email_message_prepare env e =
      .error (PrepError.invalidStateTransition, e) := by
  unfold email_message_prepare
  rw [if_pos h]

theorem email_message_prepare_rejects_non_new_witness :
    email_message_prepare samplePrepEnv
        { sampleMessage with status := EmailMessageStatus.ready } =
      .error (PrepError.invalidStateTransition,
        { sampleMessage with status := EmailMessageStatus.ready }) :=
  email_message_prepare_rejects_non_new samplePrepEnv
    { sampleMessage with status := EmailMessageStatus.ready } (by decide)

/-! ## C7 — the trim_string contract -/

/-- C7 as stated is false: `trim_string` does not collapse every run of
repeated whitespace into single spaces — on `"a  b"` (two interior spaces, a
single line) it returns the input unchanged, which differs from the
whitespace-collapsing normalizer the claim says it equals. -/
theorem trim_string_not_ws_collapsing :
    trim_string "a  b" ≠ trim_string_ws_spec "a  b" := by decide

theorem sanitize_lines_eq_filter_map (l : List String) :
    sanitize_lines l = (l.map pyStrip).filter (fun x => !(x = "")) := by
  induction l with
  | nil => rfl
  | cons a t ih =>
    simp only [sanitize_lines, List.map_cons, List.filter_cons]
    by_cases h : pyStrip a = ""
    · simp [h, ih]
    · simp [h, ih]

/-- C7 amended: `trim_string` implements exactly the stated contract — split
on line boundaries, strip each line, drop blank lines, join the survivors
with a single space, strip the ends.  (Runs of line boundaries collapse, but
repeated spaces or tabs inside a single line are preserved, so the claim's
"repeated whitespace is collapsed" characterization does not hold.) -/
theorem trim_string_meets_contract (s : String) :
    trim_string s = trim_string_contract s := by
  simp only [trim_string, trim_string_contract, sanitize_lines_eq_filter_map]

/-! ## C2 — a PROCESSED webhook is not immutable -/

/-- C2 as stated is false: calling process on a webhook that is already
PROCESSED changes its status.  The status≠NEW precondition `RuntimeError` is
raised inside the `try` block, so the catch-all handler records the event as
status=ERROR — the status regresses from PROCESSED to ERROR. -/
theorem webhook_processed_status_not_immutable :
    (email_message_webhook_process sampleProcessedWebhook
        sampleProcessedState).webhooks.map (fun w => w.status) ≠
      [WebhookStatus.processed] := by decide

/-- C2 amended: once PROCESSED, re-invoking process never re-runs
reconciliation — the message store is untouched and the event's payload,
type and link are unchanged — but the event itself is rewritten to
status=ERROR with the diagnostic note, because the precondition violation is
absorbed by the catch-all handler rather than propagated. -/
theorem webhook_process_on_processed_absorbed (w : EmailMessageWebhook)
    (st : MailState) (h : w.status = WebhookStatus.processed) :
    email_message_webhook_process w st =
      { st with
        webhooks :=
          saveWebhook { w with status := WebhookStatus.error, note := pyTraceback }
            st.webhooks } := by
  unfold email_message_webhook_process webhook_process_try
  rw [if_pos (by rw [h]; decide)]

theorem webhook_process_on_processed_absorbed_witness :
    email_message_webhook_process sampleProcessedWebhook sampleProcessedState =
      { sampleProcessedState with
        webhooks :=
          saveWebhook
            { sampleProcessedWebhook with
              status := WebhookStatus.error, note := pyTraceback }
            sampleProcessedState.webhooks } :=
  webhook_process_on_processed_absorbed sampleProcessedWebhook
    sampleProcessedState rfl

/-! ## C3 — the precondition violation does not propagate -/

/-- C3 as stated is false: processing a webhook whose status is not NEW does
not let the InvalidStateTransition error propagate — the call returns
normally, and the failure is absorbed into the event exactly like every
other exception, leaving it in status=ERROR with the diagnostic note. -/
theorem webhook_process_precondition_absorbed_counterexample :
    (email_message_webhook_process samplePendingWebhook
        samplePendingState).webhooks.map (fun w => (w.status, w.note)) =
      [(WebhookStatus.error, pyTraceback)] := by decide

/-- C3 amended: calling process on a webhook whose status is not NEW raises
the InvalidStateTransition `RuntimeError` inside the `try` block, where the
catch-all handler treats it like every other processing exception: the event
is recorded as status=ERROR with a diagnostic note, nothing else changes,
and nothing is re-raised to the caller. -/
theorem webhook_process_non_new_absorbed (w : EmailMessageWebhook)
    (st : MailState) (h : w.status ≠ WebhookStatus.new) :
    email_message_webhook_process w st =
      { st with
        webhooks :=
          saveWebhook { w with status := WebhookStatus.error, note := pyTraceback }
            st.webhooks } := by
  unfold email_message_webhook_process webhook_process_try
  rw [if_pos h]

theorem webhook_process_non_new_absorbed_witness :
    email_message_webhook_process samplePendingWebhook samplePendingState =
      { samplePendingState with
        webhooks :=
          saveWebhook
            { samplePendingWebhook with
              status := WebhookStatus.error, note := pyTraceback }
            samplePendingState.webhooks } :=
  webhook_process_non_new_absorbed samplePendingWebhook samplePendingState
    (by decide)

/-! ## C9 — webhook ingest validation -/

/-- C9: ingest of a raw body that is unparseable, or parses to a non-mapping,
fails with ValueError("Invalid payload") and leaves the store untouched (no
WebhookEvent is created); ingest of a mapping appends exactly one new
WebhookEvent in status=NEW whose stored headers are exactly the string-valued
entries of the input headers (non-string values silently dropped) and whose
body is the parsed payload. -/
theorem webhook_create_from_request_validates (body : String)
    (headers : List (String × Json)) (st : MailState) :
    (json_loads body = none →
      email_message_webhook_create_from_request body headers st =
        (.error "Invalid payload", st)) ∧
    (∀ j, json_loads body = some j → j.isObj = false →
      email_message_webhook_create_from_request body headers st =
        (.error "Invalid payload", st)) ∧
    (∀ kvs, json_loads body = some (Json.obj kvs) →
      ∃ wh,
        email_message_webhook_create_from_request body headers st =
          (.ok wh, { st with webhooks := st.webhooks ++ [wh] }) ∧
        wh.status = WebhookStatus.new ∧
        wh.body = kvs ∧
        wh.email_message = none ∧
        wh.headers = headers.filterMap (fun p =>
          match p.2 with
          | .str v => some (p.1, v)
          | _ => none)) := by
  refine ⟨fun h => ?_, fun j hj hobj => ?_, fun kvs hkvs => ?_⟩
  · unfold email_message_webhook_create_from_request validate_request_body_json
    rw [h]
  · unfold email_message_webhook_create_from_request validate_request_body_json
    rw [hj]
    cases j with
    | obj kvs => simp [Json.isObj] at hobj
    | null => rfl
    | bool b => rfl
    | num n => rfl
    | str s => rfl
    | arr l => rfl
  · unfold email_message_webhook_create_from_request validate_request_body_json
    rw [hkvs]
    exact ⟨_, rfl, rfl, rfl, rfl, rfl⟩

theorem webhook_create_from_request_validates_witness :
    email_message_webhook_create_from_request "bad json" []
        { messages := [], webhooks := [] } =
      (.error "Invalid payload", { messages := [], webhooks := [] }) :=
  (webhook_create_from_request_validates "bad json" []
    { messages := [], webhooks := [] }).1 rfl

/-! ## C4 — cooldown monotone in the scope set -/

theorem stage_sublist {α : Type} {l l' : List α} (h : l.Sublist l')
    (p : α → Bool) (b b' : Bool) (himp : b' = true → b = true) :
    (if b then l.filter p else l).Sublist (if b' then l'.filter p else l') := by
  cases hb' : b'
  · cases hb : b
    · simpa using h
    · simp only [if_pos rfl, if_neg Bool.false_ne_true]
      exact (List.filter_sublist l).trans h
  · rw [himp hb']
    simp only [if_pos rfl]
    exact h.filter p

/-- C4: the cooldown decision is monotone in the scope set — for a fixed
candidate, window, threshold, clock and store, if
`email_message_check_cooling_down` suppresses under a scope set, it also
suppresses under every subset of that scope set: removing a scope never
turns suppression off. -/
theorem email_message_check_cooling_down_scope_monotone
    (now period : Int) (store : List EmailMessage) (e : EmailMessage)
    (allowed : Nat) (scopes scopes' : List String)
    (hsub : ∀ x, x ∈ scopes' → x ∈ scopes)
    (h : email_message_check_cooling_down now store e period allowed scopes
        = true) :
    email_message_check_cooling_down now store e period allowed scopes'
      = true := by
  unfold email_message_check_cooling_down at h ⊢
  simp only [decide_eq_true_eq] at h ⊢
  refine Nat.le_trans h (List.Sublist.length_le ?_)
  have hc : ∀ x : String, scopes'.contains x = true → scopes.contains x = true := by
    intro x hx
    have := hsub x (by simpa using hx)
    simpa using this
  exact stage_sublist
    (stage_sublist (stage_sublist (List.Sublist.refl _) _ _ _ (hc "created_by"))
      _ _ _ (hc "template_prefix"))
    _ _ _ (hc "to")

theorem email_message_check_cooling_down_scope_monotone_witness :
    email_message_check_cooling_down 10 [sampleMessage] sampleMessage 180 1 []
      = true :=
  email_message_check_cooling_down_scope_monotone 10 180 [sampleMessage]
    sampleMessage 1 ["created_by", "template_prefix", "to"] []
    (by intro x hx; simp at hx) (by decide)

/-! ## C8 — subject truncation in prepare -/

/-- C8: during a successful prepare, when the resolved (trimmed) subject is
longer than the configured maximum, the persisted subject is the first
(maximum − 3) characters followed by `"..."` — total length exactly the
maximum; a resolved subject at or below the maximum is persisted untouched.
(The maximum is assumed to be at least 3 and to fit the 254-character subject
column, as the shipped configuration's 78 does.) -/
theorem email_message_prepare_truncates_subject
    (env : PrepEnv) (e : EmailMessage) (raw : String)
    (hnew : e.status = EmailMessageStatus.new)
    (hreply : trim_string e.reply_to_name = "" ∨ trim_string e.reply_to_email ≠ "")
    (hraw : (if e.subject = "" then
        env.render (e.template_id ++ "_subject.txt")
          (dictMerge (siteDefaults env) e.template_context)
      else Except.ok e.subject) = .ok raw)
    (hmax3 : 3 ≤ env.max_subject_length)
    (hmax254 : env.max_subject_length ≤ 254) :
    ∃ final, email_message_prepare env e = .ok final ∧
      final.subject =
        (if ((trim_string raw).length : Int) > env.max_subject_length then
          pySliceTo (trim_string raw) (env.max_subject_length - 3) ++ "..."
        else trim_string raw) ∧
      (((trim_string raw).length : Int) > env.max_subject_length →
        (final.subject.length : Int) = env.max_subject_length) ∧
      (((trim_string raw).length : Int) ≤ env.max_subject_length →
        final.subject = trim_string raw) := by
  unfold email_message_prepare
  rw [if_neg (by simp [hnew])]
  rw [if_neg (by
    rcases hreply with h | h
    · intro hand
      exact absurd h hand.1
    · intro hand
      exact absurd hand.2 h)]
  simp only
  rw [hraw]
  refine ⟨_, rfl, rfl, ?_, ?_⟩
  · intro hgt
    rw [if_pos hgt]
    rw [String.length_append]
    unfold pySliceTo
    rw [if_pos (by omega)]
    show (((trim_string raw).data.take
      (env.max_subject_length - 3).toNat).length + ("...".length) : Int) = _
    rw [List.length_take]
    have hlen : ((trim_string raw).data.length : Int) > env.max_subject_length := hgt
    have h3 : ("...".length : Int) = 3 := by decide
    push_cast
    omega
  · intro hle
    rw [if_neg (by omega)]

theorem email_message_prepare_truncates_subject_witness :
    ∃ final,
      email_message_prepare samplePrepEnv
          { sampleMessage with
            status := EmailMessageStatus.new
            subject := "aaaaaaaaaaaaaaaaaaaaaaaaaaaaaaaaaaaaaaaaaaaaaaaaaaaaaaaaaaaaaaaaaaaaaaaaaaaaaaaaaaaaaaaaaaaaaaaaaaaa" } =
        .ok final ∧
      (final.subject.length : Int) = 78 := by
  obtain ⟨f, hok, _, hlen, _⟩ :=
    email_message_prepare_truncates_subject samplePrepEnv
      { sampleMessage with
        status := EmailMessageStatus.new
        subject := "aaaaaaaaaaaaaaaaaaaaaaaaaaaaaaaaaaaaaaaaaaaaaaaaaaaaaaaaaaaaaaaaaaaaaaaaaaaaaaaaaaaaaaaaaaaaaaaaaaaa" }
      "aaaaaaaaaaaaaaaaaaaaaaaaaaaaaaaaaaaaaaaaaaaaaaaaaaaaaaaaaaaaaaaaaaaaaaaaaaaaaaaaaaaaaaaaaaaaaaaaaaaa"
      rfl (Or.inl rfl) rfl (by decide) (by decide)
  exact ⟨f, hok, hlen (by decide)⟩

/-! ## C6 — send failure capture and HTML tolerance -/

theorem except_ok_bind {ε α β : Type} (a : α) (f : α → Except ε β) :
    (Except.ok a : Except ε α) >>= f = f a := rfl

theorem except_error_bind {ε α β : Type} (ex : ε) (f : α → Except ε β) :
    (Except.error ex : Except ε α) >>= f = Except.error ex := rfl

theorem send_try_error_of_text_render (env : SendEnv) (w : EmailMessage)
    (ex : Exn)
    (h : env.render (w.template_id ++ "_message.txt") w.template_context
        = .error ex) :
    send_try env w = Except.error ex := by
  unfold send_try
  rw [h, except_error_bind]

theorem send_try_error_of_addresses (env : SendEnv) (w : EmailMessage)
    (msg : String) (ho : Option String) (ex : Exn)
    (hmsg : env.render (w.template_id ++ "_message.txt") w.template_context
        = .ok msg)
    (hhtml : send_render_html env w = .ok ho)
    (haddr : send_addresses env w = .error ex) :
    send_try env w = Except.error ex := by
  unfold send_try
  rw [hmsg, except_ok_bind, hhtml, except_ok_bind, haddr, except_error_bind]

theorem send_try_error_of_transport (env : SendEnv) (w : EmailMessage)
    (msg : String) (ho : Option String) (f : String) (t : List String)
    (r : Option (List String)) (ex : Exn)
    (hmsg : env.render (w.template_id ++ "_message.txt") w.template_context
        = .ok msg)
    (hhtml : send_render_html env w = .ok ho)
    (haddr : send_addresses env w = .ok (f, t, r))
    (htrans : env.transport_send (composed_of w msg ho f t r) = .error ex) :
    send_try env w = Except.error ex := by
  unfold send_try
  rw [hmsg, except_ok_bind, hhtml, except_ok_bind, haddr, except_ok_bind]
  dsimp only
  rw [htrans, except_error_bind]

theorem send_try_ok_full (env : SendEnv) (w : EmailMessage)
    (msg : String) (ho : Option String) (f : String) (t : List String)
    (r : Option (List String)) (res : TransportResult) (mid : Option String)
    (hmid : (match res with
      | TransportResult.idList [i] => some i
      | _ => w.message_id) = mid)
    (hmsg : env.render (w.template_id ++ "_message.txt") w.template_context
        = .ok msg)
    (hhtml : send_render_html env w = .ok ho)
    (haddr : send_addresses env w = .ok (f, t, r))
    (htrans : env.transport_send (composed_of w msg ho f t r) = .ok res) :
    send_try env w = Except.ok mid := by
  unfold send_try
  rw [hmsg, except_ok_bind, hhtml, except_ok_bind, haddr, except_ok_bind]
  dsimp only
  rw [htrans, except_ok_bind, ← hmid]
  clear hmid htrans
  rcases res with ids | _
  · rcases ids with _ | ⟨i, _ | ⟨j, tl⟩⟩ <;> rfl
  · rfl

theorem email_message_send_of_try_error (env : SendEnv) (e : EmailMessage)
    (ex : Exn) (hready : e.status = EmailMessageStatus.ready)
    (h : send_try env { e with status := EmailMessageStatus.pending }
        = .error ex) :
    email_message_send env e =
      .ok { e with
        status := EmailMessageStatus.error
        error_message := reprExn ex } := by
  unfold email_message_send
  rw [if_neg (by simp [hready])]
  dsimp only
  rw [h]

theorem email_message_send_of_try_ok (env : SendEnv) (e : EmailMessage)
    (mid : Option String) (hready : e.status = EmailMessageStatus.ready)
    (h : send_try env { e with status := EmailMessageStatus.pending }
        = .ok mid) :
    email_message_send env e =
      .ok { e with
        message_id := mid
        status := EmailMessageStatus.sent
        sent_at := some env.now } := by
  unfold email_message_send
  rw [if_neg (by simp [hready])]
  dsimp only
  rw [h]

/-- C6: during send on a READY message, a failure in rendering the required
text body, in encoding any of the addresses, or in dispatching via the
transport leaves the message persisted as status=ERROR with
`error_message = repr(failure)` and nothing retried; whereas when only the
HTML variant is missing (`TemplateDoesNotExist`) the send proceeds text-only
and the message ends status=SENT with `sent_at` set. -/
theorem email_message_send_error_capture (env : SendEnv) (e : EmailMessage)
    (hready : e.status = EmailMessageStatus.ready) :
    (∀ ex,
      env.render (e.template_id ++ "_message.txt") e.template_context
          = .error ex →
      email_message_send env e =
        .ok { e with
          status := EmailMessageStatus.error
          error_message := reprExn ex }) ∧
    (∀ msg ho ex,
      env.render (e.template_id ++ "_message.txt") e.template_context
          = .ok msg →
      send_render_html env e = .ok ho →
      send_addresses env e = .error ex →
      email_message_send env e =
        .ok { e with
          status := EmailMessageStatus.error
          error_message := reprExn ex }) ∧
    (∀ msg ho f t r ex,
      env.render (e.template_id ++ "_message.txt") e.template_context
          = .ok msg →
      send_render_html env e = .ok ho →
      send_addresses env e = .ok (f, t, r) →
      env.transport_send (composed_of e msg ho f t r) = .error ex →
      email_message_send env e =
        .ok { e with
          status := EmailMessageStatus.error
          error_message := reprExn ex }) ∧
    (∀ msg nm f t r res mid,
      env.render (e.template_id ++ "_message.txt") e.template_context
          = .ok msg →
      env.render (e.template_id ++ "_message.html") e.template_context
          = .error (Exn.templateDoesNotExist nm) →
      send_addresses env e = .ok (f, t, r) →
      env.transport_send (composed_of e msg none f t r) = .ok res →
      (match res with
        | TransportResult.idList [i] => some i
        | _ => e.message_id) = mid →
      email_message_send env e =
        .ok { e with
          message_id := mid
          status := EmailMessageStatus.sent
          sent_at := some env.now }) := by
  refine ⟨fun ex h => ?_, fun msg ho ex h1 h2 h3 => ?_,
    fun msg ho f t r ex h1 h2 h3 h4 => ?_,
    fun msg nm f t r res mid h1 h2 h3 h4 h5 => ?_⟩
  · exact email_message_send_of_try_error env e ex hready
      (send_try_error_of_text_render env _ ex h)
  · exact email_message_send_of_try_error env e ex hready
      (send_try_error_of_addresses env _ msg ho ex h1 h2 h3)
  · exact email_message_send_of_try_error env e ex hready
      (send_try_error_of_transport env _ msg ho f t r ex h1 h2 h3 h4)
  · have hh : send_render_html env
        { e with status := EmailMessageStatus.pending } = .ok none := by
      unfold send_render_html
      rw [show env.render
        (({ e with status := EmailMessageStatus.pending } :
            EmailMessage).template_id ++ "_message.html")
        ({ e with status := EmailMessageStatus.pending } :
            EmailMessage).template_context
        = .error (Exn.templateDoesNotExist nm) from h2]
    exact email_message_send_of_try_ok env e mid hready
      (send_try_ok_full env _ msg none f t r res mid h5 h1 hh h3 h4)

def sampleSendEnv : SendEnv :=
  { render := fun name _ =>
      if name = "core/email/base_message.txt" then Except.ok "Body text"
      else Except.error (Exn.templateDoesNotExist name)
    sanitize_address := fun n a => Except.ok (n ++ " <" ++ a ++ ">")
    transport_send := fun _ => Except.ok (TransportResult.idList ["provider-1"])
    now := 42 }

def sampleReadyMessage : EmailMessage :=
  { sampleMessage with status := EmailMessageStatus.ready }

theorem email_message_send_error_capture_witness :
    email_message_send sampleSendEnv sampleReadyMessage =
      .ok { sampleReadyMessage with
        message_id := some "provider-1"
        status := EmailMessageStatus.sent
        sent_at := some 42 } :=
  (email_message_send_error_capture sampleSendEnv sampleReadyMessage rfl).2.2.2
    "Body text" "core/email/base_message.html" " <bob@example.com>"
    ["Pat <pat@example.com>"] none (TransportResult.idList ["provider-1"])
    (some "provider-1") rfl rfl rfl rfl rfl

/-! ## Ordering bridge: the sorted-last test equals "newer than every prior" -/

theorem mem_of_getLast?_eq {α : Type} :
    ∀ {l : List α} {a : α}, l.getLast? = some a → a ∈ l
  | [], a, h => by simp at h
  | [b], a, h => by
    simp only [List.getLast?_singleton, Option.some.injEq] at h
    simp [h]
  | b :: c :: t, a, h => by
    rw [List.getLast?_cons_cons] at h
    exact List.mem_cons_of_mem b (mem_of_getLast?_eq h)

theorem le_getLast_of_sorted :
    ∀ {s : List Int} {M : Int}, s.Sorted (· ≤ ·) → s.getLast? = some M →
      ∀ x ∈ s, x ≤ M
  | [], M, _, h, x, hx => by simp at hx
  | [b], M, _, h, x, hx => by
    simp only [List.getLast?_singleton, Option.some.injEq] at h
    simp only [List.mem_singleton] at hx
    simp [h, hx]
  | b :: c :: t, M, hsort, h, x, hx => by
    rw [List.getLast?_cons_cons] at h
    have htail : (c :: t).Sorted (· ≤ ·) := hsort.of_cons
    have hble : ∀ y ∈ c :: t, b ≤ y := fun y hy =>
      (List.sorted_cons.mp hsort).1 y hy
    rcases List.mem_cons.mp hx with hxb | hxt
    · subst hxb
      exact le_trans (hble M (mem_of_getLast?_eq h))
        (le_refl M)
    · exact le_getLast_of_sorted htail h x hxt

theorem sorted_last_lt_iff (l : List Int) (ts : Int) :
    sorted_last_lt l ts = true ↔ ∀ x ∈ l, x < ts := by
  unfold sorted_last_lt
  have hperm : (l.insertionSort (· ≤ ·)).Perm l := List.perm_insertionSort _ l
  have hsort : (l.insertionSort (· ≤ ·)).Sorted (· ≤ ·) :=
    List.sorted_insertionSort _ l
  cases h : (l.insertionSort (· ≤ ·)).getLast? with
  | none =>
    have hnil : l.insertionSort (· ≤ ·) = [] := by
      cases hs : l.insertionSort (· ≤ ·) with
      | nil => rfl
      | cons a t => rw [hs] at h; simp [List.getLast?] at h
    have : l = [] := (hnil ▸ hperm).symm.eq_nil
    simp [this]
  | some M =>
    simp only [decide_eq_true_eq]
    constructor
    · intro hM x hx
      exact lt_of_le_of_lt
        (le_getLast_of_sorted hsort h x (hperm.mem_iff.mpr hx)) hM
    · intro hall
      exact hall M (hperm.mem_iff.mp (mem_of_getLast?_eq h))

theorem maximum_lt_coe_iff (l : List Int) (ts : Int) :
    l.maximum < (ts : WithBot Int) ↔ ∀ x ∈ l, x < ts := by
  cases h : l.maximum with
  | bot =>
    have : l = [] := List.maximum_eq_bot.mp h
    subst this
    simp [WithBot.bot_lt_coe ts]
  | coe M =>
    constructor
    · intro hlt x hx
      have hxM : x ≤ M := by
        have := List.le_maximum_of_mem hx h
        exact_mod_cast this
      have hMts : M < ts := by exact_mod_cast hlt
      exact lt_of_le_of_lt hxM hMts
    · intro hall
      have hMl : M ∈ l := List.maximum_mem h
      exact_mod_cast hall M hMl

theorem sorted_last_lt_eq_maximum_lt (l : List Int) (ts : Int) :
    sorted_last_lt l ts = true ↔ l.maximum < (ts : WithBot Int) := by
  rw [sorted_last_lt_iff, maximum_lt_coe_iff]

/-! ## Store lemmas: saving a webhook that fails a filter leaves it stable -/

theorem filter_saveWebhook (w' : EmailMessageWebhook)
    (p : EmailMessageWebhook → Bool) (hp : p w' = false) :
    ∀ l : List EmailMessageWebhook,
      (∀ x ∈ l, x.id = w'.id → p x = false) →
      (saveWebhook w' l).filter p = l.filter p := by
  intro l
  induction l with
  | nil => intro _; rfl
  | cons a t ih =>
    intro hl
    unfold saveWebhook at ih ⊢
    simp only [List.map_cons, List.filter_cons]
    by_cases ha : a.id = w'.id
    · rw [if_pos ha, hp, hl a (List.mem_cons_self a t) ha,
        ih (fun x hx hid => hl x (List.mem_cons_of_mem a hx) hid)]
      simp
    · rw [if_neg ha, ih (fun x hx hid => hl x (List.mem_cons_of_mem a hx) hid)]

theorem filter_save_save (w1 w2 : EmailMessageWebhook)
    (p : EmailMessageWebhook → Bool) (hid : w2.id = w1.id)
    (hp1 : p w1 = false) (hp2 : p w2 = false) :
    ∀ l, (∀ x ∈ l, x.id = w1.id → p x = false) →
      (saveWebhook w2 (saveWebhook w1 l)).filter p = l.filter p := by
  intro l hl
  have hinner : ∀ x ∈ saveWebhook w1 l, x.id = w2.id → p x = false := by
    intro x hx hxid
    obtain ⟨y, hy, rfl⟩ := List.mem_map.mp hx
    by_cases hyw : y.id = w1.id
    · rw [if_pos hyw]
      exact hp1
    · rw [if_neg hyw] at hxid ⊢
      exact hl y hy (hxid.trans hid)
  rw [filter_saveWebhook w2 p hp2 _ hinner, filter_saveWebhook w1 p hp1 l hl]

theorem saveWebhook_saveWebhook (a b : EmailMessageWebhook) (hid : a.id = b.id) :
    ∀ l, saveWebhook a (saveWebhook b l) = saveWebhook a l := by
  intro l
  induction l with
  | nil => rfl
  | cons x t ih =>
    unfold saveWebhook at ih ⊢
    simp only [List.map_cons, List.cons.injEq]
    refine ⟨?_, ih⟩
    by_cases hx : x.id = b.id
    · rw [if_pos hx, if_pos (hid.symm), if_pos (hx.trans hid.symm)]
    · rw [if_neg hx]

/-! ## C1 — latest logical timestamp wins -/

/-- C1: for a NEW webhook event carrying a `RecordType` that maps to a
terminal email status and a `MessageID` matching a stored message, processing
applies the mapped status to that message if and only if the event's own
logical timestamp (parsed from its type-specific payload field after
`Z -> +00:00` normalization) is strictly greater than the maximum logical
timestamp over all previously recorded webhook events linked to the same
message (`List.maximum`, with the empty list's `⊥` as "no prior events", which
always applies).  In particular a logically earlier event processed later
leaves the message's status untouched. -/
theorem email_message_webhook_process_orders_by_logical_timestamp
    (st : MailState) (w : EmailMessageWebhook) (m : EmailMessage)
    (t mid : String) (s' : EmailMessageStatus) (tss : List Int) (ts : Int)
    (hstatus : w.status = WebhookStatus.new)
    (hunlinked : w.email_message = none)
    (hstore : ∀ x ∈ st.webhooks, x.id = w.id → x.email_message = none)
    (hrt : jlookup w.body "RecordType" = some (Json.str t))
    (hmid : jlookup w.body "MessageID" = some (Json.str mid))
    (hfind : st.messages.find? (fun x => decide (x.message_id = some mid))
        = some m)
    (hmap : WEBHOOK_TYPE_TO_EMAIL_STATUS t = some s')
    (hpriors : (st.webhooks.filter (fun ow =>
        decide (ow.email_message = some m.id))).mapM webhook_ts_of = some tss)
    (hown : webhook_logical_ts t w.body = some ts) :
    (email_message_webhook_process w st).messages =
      (if tss.maximum < (ts : WithBot Int) then
        saveMessage { m with status := s' } st.messages
      else st.messages) := by
  unfold email_message_webhook_process webhook_process_try
  rw [if_neg (by simp [hstatus])]
  dsimp only
  rw [hrt]
  unfold webhook_process_linking
  dsimp only
  rw [hmid]
  dsimp only [jstr]
  rw [hfind]
  rw [hmap]
  dsimp only
  rw [filter_save_save
    { w with status := WebhookStatus.pending }
    { w with status := WebhookStatus.pending, type := t }
    (fun ow => decide (ow.email_message = some m.id)) rfl
    (by simp [hunlinked]) (by simp [hunlinked]) st.webhooks
    (fun x hx hid => by simp [hstore x hx hid])]
  rw [hpriors]
  dsimp only [webhook_ts_of]
  rw [hown]
  dsimp only
  by_cases hc : tss.maximum < (ts : WithBot Int)
  · rw [if_pos hc, (sorted_last_lt_eq_maximum_lt tss ts).mpr hc]
    rfl
  · rw [if_neg hc]
    have hb : sorted_last_lt tss ts = false := by
      cases hbb : sorted_last_lt tss ts
      · rfl
      · exact absurd ((sorted_last_lt_eq_maximum_lt tss ts).mp hbb) hc
    rw [hb]
    rfl

/-- A processed, linked Open event with logical timestamp
2020-01-01T00:00:02Z (1577836802000000 μs). -/
def priorOpenWebhook : EmailMessageWebhook :=
  { id := 1
    body := [("RecordType", Json.str "Open"),
             ("MessageID", Json.str "id-abc123"),
             ("ReceivedAt", Json.str "2020-01-01T00:00:02Z")]
    headers := []
    type := "Open"
    email_message := some 0
    note := ""
    status := WebhookStatus.processed }

/-- A fresh Delivery event whose logical timestamp 2020-01-01T00:00:00Z
(1577836800000000 μs) precedes the already-recorded Open event. -/
def lateDeliveryWebhook : EmailMessageWebhook :=
  { id := 2
    body := [("RecordType", Json.str "Delivery"),
             ("MessageID", Json.str "id-abc123"),
             ("DeliveredAt", Json.str "2020-01-01T00:00:00Z")]
    headers := []
    type := ""
    email_message := none
    note := ""
    status := WebhookStatus.new }

def orderState : MailState :=
  { messages := [sampleMessage], webhooks := [priorOpenWebhook, lateDeliveryWebhook] }

theorem email_message_webhook_process_orders_by_logical_timestamp_witness :
    (email_message_webhook_process lateDeliveryWebhook orderState).messages =
      (if ([1577836802000000] : List Int).maximum
          < ((1577836800000000 : Int) : WithBot Int) then
        saveMessage { sampleMessage with status := EmailMessageStatus.delivered }
          orderState.messages
      else orderState.messages) :=
  email_message_webhook_process_orders_by_logical_timestamp orderState
    lateDeliveryWebhook sampleMessage "Delivery" "id-abc123"
    EmailMessageStatus.delivered [1577836802000000] 1577836800000000
    rfl rfl (by decide) rfl rfl rfl rfl rfl rfl

/-! ## C10 — a poisoned prior webhook makes later recognized events fail -/

theorem option_some_bind {α β : Type} (a : α) (f : α → Option β) :
    (some a >>= f) = f a := rfl

theorem option_none_bind {α β : Type} (f : α → Option β) :
    ((none : Option α) >>= f) = none := rfl

theorem mapM_eq_none_of_mem {α β : Type} (f : α → Option β) :
    ∀ (l : List α) (a : α), a ∈ l → f a = none → l.mapM f = none := by
  intro l
  induction l with
  | nil => intro a ha _; simp at ha
  | cons x t ih =>
    intro a ha hfa
    rw [List.mapM_cons]
    rcases List.mem_cons.mp ha with rfl | hat
    · rw [hfa]; rfl
    · cases hfx : f x with
      | none => rfl
      | some y => rw [option_some_bind, ih a hat hfa]; rfl

theorem webhook_ts_of_eq_none_of_bad (ow : EmailMessageWebhook)
    (hb : WEBHOOK_TYPE_TO_TIMESTAMP ow.type = none ∨
      (∃ k, WEBHOOK_TYPE_TO_TIMESTAMP ow.type = some k ∧
        jlookup ow.body k = none)) :
    webhook_ts_of ow = none := by
  unfold webhook_ts_of webhook_logical_ts
  rcases hb with hk | ⟨k, hk, hl⟩
  · rw [hk]; rfl
  · rw [hk, option_some_bind, hl, option_none_bind]

/-- C10: when some already-recorded webhook event linked to a message has a
type with no entry in the type→timestamp-field mapping, or lacks its type's
timestamp field in its payload, then processing any subsequent NEW
recognized-type event for the same message fails during the timestamp scan:
the later event ends in status=ERROR (with the link and classified type
persisted and a diagnostic note) and the message store — in particular the
message's status — is unchanged, instead of the event reaching PROCESSED and
advancing the message. -/
theorem email_message_webhook_process_poisoned_history
    (st : MailState) (w : EmailMessageWebhook) (m : EmailMessage)
    (t mid : String) (s' : EmailMessageStatus)
    (hstatus : w.status = WebhookStatus.new)
    (hunlinked : w.email_message = none)
    (hstore : ∀ x ∈ st.webhooks, x.id = w.id → x.email_message = none)
    (hrt : jlookup w.body "RecordType" = some (Json.str t))
    (hmid : jlookup w.body "MessageID" = some (Json.str mid))
    (hfind : st.messages.find? (fun x => decide (x.message_id = some mid))
        = some m)
    (hmap : WEBHOOK_TYPE_TO_EMAIL_STATUS t = some s')
    (hbad : ∃ ow ∈ st.webhooks.filter (fun ow =>
        decide (ow.email_message = some m.id)),
      WEBHOOK_TYPE_TO_TIMESTAMP ow.type = none ∨
        (∃ k, WEBHOOK_TYPE_TO_TIMESTAMP ow.type = some k ∧
          jlookup ow.body k = none)) :
    email_message_webhook_process w st =
      { messages := st.messages
        webhooks := saveWebhook
          { w with
            type := t
            email_message := some m.id
            status := WebhookStatus.error
            note := pyTraceback }
          st.webhooks } := by
  obtain ⟨ow, howmem, howbad⟩ := hbad
  unfold email_message_webhook_process webhook_process_try
  rw [if_neg (by simp [hstatus])]
  dsimp only
  rw [hrt]
  unfold webhook_process_linking
  dsimp only
  rw [hmid]
  dsimp only [jstr]
  rw [hfind]
  rw [hmap]
  dsimp only
  rw [filter_save_save
    { w with status := WebhookStatus.pending }
    { w with status := WebhookStatus.pending, type := t }
    (fun ow => decide (ow.email_message = some m.id)) rfl
    (by simp [hunlinked]) (by simp [hunlinked]) st.webhooks
    (fun x hx hid => by simp [hstore x hx hid])]
  rw [mapM_eq_none_of_mem webhook_ts_of _ ow howmem
    (webhook_ts_of_eq_none_of_bad ow howbad)]
  dsimp only
  rw [saveWebhook_saveWebhook
    { w with
        type := t, email_message := some m.id, status := WebhookStatus.error,
        note := pyTraceback }
    { w with status := WebhookStatus.pending, type := t } rfl,
    saveWebhook_saveWebhook
    { w with
        type := t, email_message := some m.id, status := WebhookStatus.error,
        note := pyTraceback }
    { w with status := WebhookStatus.pending } rfl]

/-- A processed webhook linked to the message whose RecordType has no entry
in the type→timestamp mapping. -/
def unknownTypeWebhook : EmailMessageWebhook :=
  { id := 1
    body := [("RecordType", Json.str "some_type"),
             ("MessageID", Json.str "id-abc123")]
    headers := []
    type := "some_type"
    email_message := some 0
    note := ""
    status := WebhookStatus.processed }

/-- A fresh recognized-type Delivery event for the same message. -/
def freshDeliveryWebhook : EmailMessageWebhook :=
  { id := 2
    body := [("RecordType", Json.str "Delivery"),
             ("MessageID", Json.str "id-abc123"),
             ("DeliveredAt", Json.str "2020-01-01T00:00:00Z")]
    headers := []
    type := ""
    email_message := none
    note := ""
    status := WebhookStatus.new }

def poisonedState : MailState :=
  { messages := [sampleMessage]
    webhooks := [unknownTypeWebhook, freshDeliveryWebhook] }

theorem email_message_webhook_process_poisoned_history_witness :
    email_message_webhook_process freshDeliveryWebhook poisonedState =
      { messages := poisonedState.messages
        webhooks := saveWebhook
          { freshDeliveryWebhook with
            type := "Delivery"
            email_message := some 0
            status := WebhookStatus.error
            note := pyTraceback }
          poisonedState.webhooks } :=
  email_message_webhook_process_poisoned_history poisonedState
    freshDeliveryWebhook sampleMessage "Delivery" "id-abc123"
    EmailMessageStatus.delivered rfl rfl (by decide) rfl rfl rfl rfl
    ⟨unknownTypeWebhook, List.Mem.head _, Or.inl rfl⟩
